import Mathlib

/-!
# Verification of `nike_monitor.py`

A shallow embedding of the monitor in `src/nike_monitor.py`.  Pure logic
(matching, extraction decisions, state comparison, message formatting,
channel dispatch control flow) is translated into executable Lean
definitions; the HTTP layer and the HTML parser are treated as external
collaborators, so a fetched page enters the model already parsed into the
element data the Python code inspects (button class names, disabled flags,
element text), and a network call is an explicit outcome value
(`exn` for a raised exception, `http status body` for a response).

Python strings are Lean `String`s; `str.lower` is modelled per character
(ASCII case mapping), `in` (substring) and `split('/')` and `sorted` are
given structural recursive definitions so all of them evaluate in the
kernel.

Note on `format_notification` and `should_notify`: in the source file the
first lines of each body (the docstring, the `if not products:` guard and
its `return`, lines 278-280 and 301-303) are dedented to the column of the
`def` itself, which is a Python `IndentationError`: the module as committed
cannot be imported at all.  There is exactly one minimal re-indentation
under which the file parses (shifting those three lines back under the
`def`), and it agrees with the documented behaviour; the two definitions
below embed that re-indented body, and the corresponding theorems are
about that evidently intended code.
-/

namespace NikeMonitor

/-- Python `str.lower()` (ASCII case mapping, applied per character). -/
def pyLower (s : String) : String :=
  String.mk (s.data.map Char.toLower)

/-- Python `list.startswith` style prefix test on character lists. -/
def isPrefixOfChars : List Char → List Char → Bool
  | [], _ => true
  | _ :: _, [] => false
  | a :: as, b :: bs => a == b && isPrefixOfChars as bs

/-- Python `needle in hay` substring test on character lists. -/
def containsChars (needle : List Char) : List Char → Bool
  | [] => needle.isEmpty
  | c :: rest => isPrefixOfChars needle (c :: rest) || containsChars needle rest

/-- Python `needle in hay` on strings. -/
def strContains (hay needle : String) : Bool :=
  containsChars needle.data hay.data

/-- Lexicographic code-point comparison, as Python `<=` on strings. -/
def charListLe : List Char → List Char → Bool
  | [], _ => true
  | _ :: _, [] => false
  | a :: as, b :: bs =>
    if a.val < b.val then true
    else if b.val < a.val then false
    else charListLe as bs

/-- Python `<=` on strings (code-point lexicographic). -/
def strLe (a b : String) : Bool :=
  charListLe a.data b.data

/-- Insert into an ascending list, keeping ascending order. -/
def insertSorted (s : String) : List String → List String
  | [] => [s]
  | h :: t => if strLe s h then s :: h :: t else h :: insertSorted s t

/-- Python `sorted` on a list of strings (insertion sort; the claims only
need a deterministic ascending sort). -/
def sortedPy : List String → List String
  | [] => []
  | h :: t => insertSorted h (sortedPy t)

/-- Python `s.split('/')` on character lists: always non-empty, keeps
empty segments. -/
def splitOnSlash : List Char → List (List Char)
  | [] => [[]]
  | c :: rest =>
    if c = '/' then [] :: splitOnSlash rest
    else
      match splitOnSlash rest with
      | [] => [[c]]
      | h :: t => (c :: h) :: t

/-- Python `sep.join(lines)`. -/
def joinWith (sep : String) : List String → String
  | [] => ""
  | [x] => x
  | x :: y :: rest => x ++ sep ++ joinWith sep (y :: rest)

/-- `matches_search_terms` (src/nike_monitor.py lines 172-185): empty or
missing name never matches; otherwise every configured term, lowercased,
must occur in the lowercased name (AND logic, early return modelled by
`List.all`). -/
def matches_search_terms (search_terms : List String) (product_name : String) : Bool :=
  if product_name = "" then false
  else search_terms.all (fun term => strContains (pyLower product_name) (pyLower term))

/-- Outcome of one `requests.get`/`requests.post` call: a raised network
exception, or an HTTP response with a status code and a (parsed) body. -/
inductive Fetch (α : Type) where
  | exn : Fetch α
  | http : Nat → α → Fetch α

/-- A `<button>` element of a detail page as the Python code inspects it:
its `class` attribute text, whether the `disabled` attribute is present,
and its stripped text content. -/
structure Button where
  className : String
  disabled : Bool
  text : String
deriving DecidableEq

/-- A parsed product detail page: its buttons in document order, and the
stripped text of the first price-class element if one exists (the result
of `soup.find(class_=re.compile(r'product-price|current-price'))`). -/
structure DetailPage where
  buttons : List Button
  priceText : Option String
deriving DecidableEq

/-- The dictionary returned by `get_product_details`, as its caller reads
it through `.get`: `price := none` models an absent `'price'` key, and the
empty dictionary of the error paths is `{price := none, sizes := [],
in_stock := false}` (the caller's `.get` defaults). -/
structure DetailRecord where
  price : Option String
  sizes : List String
  in_stock : Bool
deriving DecidableEq

/-- The empty dictionary `{}` returned on fetch/parse failure, read
through the caller's `.get(..., default)` calls. -/
def emptyDetails : DetailRecord :=
  { price := none, sizes := [], in_stock := false }

/-- `class_=re.compile(r'size|btn-size')` on line 153: the button's class
text matches the regular expression (substring search). -/
def isSizeButton (b : Button) : Bool :=
  strContains b.className "size" || strContains b.className "btn-size"

/-- `text=re.compile(r'Add to Bag|Add to Cart', re.I)` on line 162:
case-insensitive substring search in the button's text. -/
def isAffordanceButton (b : Button) : Bool :=
  strContains (pyLower b.text) "add to bag" || strContains (pyLower b.text) "add to cart"

/-- Currency symbols of the price pattern `[\$£€¥][\d,]+(?:\.\d{2})?`. -/
def isCurrencySym (c : Char) : Bool :=
  c = '$' || c = '£' || c = '€' || c = '¥'

/-- Characters of the `[\d,]+` group. -/
def isDigitOrComma (c : Char) : Bool :=
  c.isDigit || c = ','

/-- Match `[\$£€¥][\d,]+(?:\.\d{2})?` anchored at the head of the list
(greedy digits group, optional cents group), returning the matched text. -/
def priceMatchAt : List Char → Option (List Char)
  | [] => none
  | c :: rest =>
    if isCurrencySym c then
      let digits := rest.takeWhile isDigitOrComma
      if digits.isEmpty then none
      else
        match rest.dropWhile isDigitOrComma with
        | '.' :: d1 :: d2 :: _ =>
          if d1.isDigit && d2.isDigit then some (c :: digits ++ ['.', d1, d2])
          else some (c :: digits)
        | _ => some (c :: digits)
    else none

/-- `re.search(r'[\$£€¥][\d,]+(?:\.\d{2})?', price_text)` on line 147:
leftmost match of the price pattern. -/
def reSearchPrice : List Char → Option (List Char)
  | [] => none
  | c :: rest =>
    match priceMatchAt (c :: rest) with
    | some m => some m
    | none => reSearchPrice rest

/-- `size_buttons` loop of lines 152-156: keep the text of every
size-class button that is not disabled and has non-empty stripped text. -/
def extractSizes (page : DetailPage) : List String :=
  (((page.buttons.filter isSizeButton).filter
      (fun b => !b.disabled && b.text ≠ "")).map (fun b => b.text))

/-- `get_product_details` (src/nike_monitor.py lines 131-170) on a fetch
outcome of the detail page: a raised exception or a non-200 status yields
the empty dictionary; otherwise price is the regular-expression match over
the price element's text (key absent when either is missing), `sizes` is
the enabled size-button texts, `in_stock` starts as `len(sizes) > 0` and
is forced to true when `soup.find` locates a first affordance-text button
and that button is not disabled (lines 158-164). -/
def get_product_details : Fetch DetailPage → DetailRecord
  | Fetch.exn => emptyDetails
  | Fetch.http status page =>
    if status ≠ 200 then emptyDetails
    else
      let sizes := extractSizes page
      let stockFromSizes := decide (sizes.length > 0)
      let in_stock :=
        match page.buttons.find? isAffordanceButton with
        | some add_to_bag => if !add_to_bag.disabled then true else stockFromSizes
        | none => stockFromSizes
      { price := page.priceText.bind (fun t => (reSearchPrice t.data).map String.mk),
        sizes := sizes,
        in_stock := in_stock }

/-- One listing card after the per-card extraction of lines 79-102: the
extracted name, the resolved link, and the listing price text; the empty
string models a value the heuristics did not find. -/
structure Card where
  name : String
  link : String
  price : String
deriving DecidableEq

/-- A product record as assembled on lines 109-115. -/
structure Product where
  name : String
  price : String
  link : String
  sizes : List String
  in_stock : Bool
deriving DecidableEq

/-- Lines 109-115: the `product_info` dictionary for a matching card;
`product_price or detailed_info.get('price', 'N/A')` takes the listing
price when it is non-empty (truthy), else the detail price when that key
exists, else `'N/A'`. -/
def buildProductInfo (card : Card) (detailed_info : DetailRecord) : Product :=
  { name := card.name,
    price := if card.price ≠ "" then card.price else detailed_info.price.getD "N/A",
    link := card.link,
    sizes := detailed_info.sizes,
    in_stock := detailed_info.in_stock }

/-- Lines 104-118 for one card: filter by the search terms, fetch the
detail page (`fetchDetail` maps the card's link to that fetch outcome),
assemble `product_info`, and retain it only under
`product_info['in_stock'] or product_info['sizes']`. -/
def assembleProduct (search_terms : List String)
    (fetchDetail : String → Fetch DetailPage) (card : Card) : Option Product :=
  if matches_search_terms search_terms card.name then
    let product_info := buildProductInfo card (get_product_details (fetchDetail card.link))
    if product_info.in_stock || !product_info.sizes.isEmpty then some product_info
    else none
  else none

/-- `check_nike_availability` (src/nike_monitor.py lines 58-129) given the
fetch outcome of the listing page (already parsed into its extracted
cards): a raised exception or a non-200 status yields `[]`; otherwise the
cards are processed in order and the retained products collected. -/
def check_nike_availability (search_terms : List String)
    (fetchDetail : String → Fetch DetailPage) : Fetch (List Card) → List Product
  | Fetch.exn => []
  | Fetch.http status cards =>
    if status ≠ 200 then []
    else cards.filterMap (assembleProduct search_terms fetchDetail)

/-- The five content lines appended for one product on lines 285-295
(name, price, the size line, the timestamp, the buy link); `now` stands
for `datetime.now().strftime('%Y-%m-%d %H:%M:%S UTC')`, frozen for the
cycle. -/
def productCoreLines (now : String) (p : Product) : List String :=
  [ "**Product:** " ++ p.name,
    "**Price:** " ++ p.price,
    (if !p.sizes.isEmpty then "**Available Sizes:** " ++ joinWith ", " p.sizes
     else "**Sizes:** Check website"),
    "**Time:** " ++ now,
    "🛒 **BUY NOW:** " ++ p.link ]

/-- Lines 285-296: the content lines for one product followed by the
empty line appended between products. -/
def productLines (now : String) (p : Product) : List String :=
  productCoreLines now p ++ [""]

/-- `format_notification` (src/nike_monitor.py lines 277-298, with the
dedented lines 278-280 re-indented under the `def` as described in the
file header): the absence message for an empty list, otherwise the header
line followed by each product's lines, joined with `"\n"`. -/
def format_notification (now : String) (products : List Product) : String :=
  if products.isEmpty then
    "🔍 **Nike Monitor Status**\n\n**Status:** No AF1 City Pack Paris found\n**Time:** "
      ++ now ++ "\n**Next check:** 5 minutes"
  else
    joinWith "\n"
      ("🚨 **NIKE ALERT — AF1 City Pack Paris (Patent)**\n"
        :: products.flatMap (productLines now))

/-- Modelled from the spec's words for the found template (§4.6 and claim
C2): one block per product, blocks joined by blank-line separators. -/
def specProductBlock (now : String) (p : Product) : String :=
  joinWith "\n" (productCoreLines now p)

/-- Modelled from the spec's words for the found template: the header,
then the product blocks separated by a blank line, with the message
ending in a final newline (the trailing empty line the source appends
after the last block). -/
def spec_found_message (now : String) (products : List Product) : String :=
  "🚨 **NIKE ALERT — AF1 City Pack Paris (Patent)**\n" ++ "\n"
    ++ joinWith "\n\n" (products.map (specProductBlock now)) ++ "\n"

/-- One persisted snapshot of a product, as stored on lines 316-321. -/
structure Snapshot where
  name : String
  price : String
  sizes : List String
  in_stock : Bool
deriving DecidableEq

/-- A Python dict from product id to snapshot, in insertion order. -/
abbrev StateMap := List (String × Snapshot)

/-- Python dict assignment `m[k] = v`: update in place if the key exists,
else append. -/
def dictInsert (m : StateMap) (k : String) (v : Snapshot) : StateMap :=
  match m with
  | [] => [(k, v)]
  | (k1, v1) :: rest => if k1 = k then (k, v) :: rest else (k1, v1) :: dictInsert rest k v

/-- Python dict lookup. -/
def dictLookup (m : StateMap) (k : String) : Option Snapshot :=
  match m with
  | [] => none
  | (k1, v1) :: rest => if k1 = k then some v1 else dictLookup rest k

/-- Python dict equality `a == b`: the same key-value pairs, regardless of
insertion order. -/
def dictEq (a b : StateMap) : Bool :=
  a.all (fun kv => dictLookup b kv.1 == some kv.2)
    && b.all (fun kv => dictLookup a kv.1 == some kv.2)

/-- Line 315: `product['link'].split('/')[-1] if product['link'] else
product['name']`. -/
def product_id (p : Product) : String :=
  if p.link ≠ "" then String.mk ((splitOnSlash p.link.data).getLastD [])
  else p.name

/-- Lines 316-321: the snapshot stored for one product (`sizes` sorted). -/
def snapshotOf (p : Product) : Snapshot :=
  { name := p.name, price := p.price, sizes := sortedPy p.sizes, in_stock := p.in_stock }

/-- Lines 313-321: build `current_state` by dict assignment over the
products in order. -/
def current_state_of (products : List Product) : StateMap :=
  products.foldl (fun st p => dictInsert st (product_id p) (snapshotOf p)) []

/-- The persisted `last_notification.json`: `none` models a missing or
corrupt file (the `except` branch of lines 306-310 turns it into `{}`). -/
abbrev StateFile := Option StateMap

/-- Lines 306-310: load the prior state, defaulting to the empty dict. -/
def loadState : StateFile → StateMap
  | none => []
  | some m => m

/-- `should_notify` (src/nike_monitor.py lines 300-334, with the dedented
lines 301-303 re-indented under the `def` as described in the file
header).  The pair returned is (the boolean result, the state file after
the call); the model's file write always succeeds (a write error on lines
326-330 is logged and swallowed, and the function still returns `True`). -/
def should_notify (products : List Product) (file : StateFile) : Bool × StateFile :=
  if products.isEmpty then (true, file)
  else
    let last_state := loadState file
    let current_state := current_state_of products
    if dictEq current_state last_state then (false, file)
    else (true, some current_state)

/-- The `telegram` settings block as read through `.get` (lines 190-199):
`none` models an absent key or a `None` value. -/
structure TelegramConfig where
  enabled : Bool
  bot_token : Option String
  chat_id : Option String

/-- The `discord_webhook` settings block (lines 255-261). -/
structure DiscordConfig where
  enabled : Bool
  webhook_url : Option String

/-- The `email_notifications` settings block (lines 226-239); a `none`
field models a missing key, whose `KeyError` the `except` catches. -/
structure EmailConfig where
  enabled : Bool
  sender_email : Option String
  recipient_email : Option String
  smtp_server : Option String
  smtp_port : Option Nat
  sender_password : Option String

/-- Outcome of the channel's HTTP POST. -/
inductive HttpPost where
  | exn : HttpPost
  | status : Nat → HttpPost

/-- Outcome of the SMTP session of lines 237-243 (connect, STARTTLS,
login, send, quit): it either completes or raises somewhere. -/
inductive SmtpSession where
  | exn : SmtpSession
  | ok : SmtpSession

/-- Python truthiness of an optional credential string. -/
def truthyStr : Option String → Bool
  | none => false
  | some s => s ≠ ""

/-- `send_telegram_message` (lines 187-221): disabled channel or missing
token/chat id returns False; a raised exception is caught and returns
False; otherwise success is exactly HTTP 200.  The message text does not
influence the control flow. -/
def send_telegram_message (cfg : TelegramConfig) (message : String) (net : HttpPost) : Bool :=
  if !cfg.enabled then false
  else if !truthyStr cfg.bot_token || !truthyStr cfg.chat_id then false
  else
    match net with
    | HttpPost.exn => false
    | HttpPost.status code => code == 200

/-- `send_discord_message` (lines 252-275): disabled channel or missing
webhook URL returns False; a raised exception returns False; success is
HTTP 200 or 204. -/
def send_discord_message (cfg : DiscordConfig) (message : String) (net : HttpPost) : Bool :=
  if !cfg.enabled then false
  else if !truthyStr cfg.webhook_url then false
  else
    match net with
    | HttpPost.exn => false
    | HttpPost.status code => code == 200 || code == 204

/-- `send_email_notification` (lines 223-250): disabled channel returns
False; a missing settings key raises `KeyError` inside the `try` and
returns False; any SMTP failure returns False; a completed session
returns True. -/
def send_email_notification (cfg : EmailConfig) (subject message : String)
    (net : SmtpSession) : Bool :=
  if !cfg.enabled then false
  else
    match cfg.sender_email, cfg.recipient_email, cfg.smtp_server,
        cfg.smtp_port, cfg.sender_password with
    | some _, some _, some _, some _, some _ =>
      match net with
      | SmtpSession.exn => false
      | SmtpSession.ok => true
    | _, _, _, _, _ => false

/-- The notification block of the run loop (lines 352-362): the three
channel sends are called in sequence, each on its own network outcome,
and their results are not inspected; the email channel receives the fixed
subject and the message with the Markdown markers stripped. -/
def dispatch (tc : TelegramConfig) (ec : EmailConfig) (dc : DiscordConfig)
    (message : String) (tn : HttpPost) (en : SmtpSession) (dn : HttpPost) :
    Bool × Bool × Bool :=
  ( send_telegram_message tc message tn,
    send_email_notification ec "Nike AF1 City Pack Paris Available!"
      (((message.replace "**" "").replace "🚨" "").replace "🛒" "") en,
    send_discord_message dc message dn )

/-! ## Helper lemmas -/

theorem isPrefixOfChars_iff (n h : List Char) : isPrefixOfChars n h = true ↔ n <+: h := by
  induction n generalizing h with
  | nil => simp [isPrefixOfChars, List.nil_prefix]
  | cons a as ih =>
    cases h with
    | nil =>
      simp only [isPrefixOfChars, Bool.false_eq_true, false_iff]
      intro hpre
      exact absurd (List.prefix_nil.mp hpre) (by simp)
    | cons b bs =>
      simp [isPrefixOfChars, ih, List.cons_prefix_cons, Bool.and_eq_true, beq_iff_eq]

theorem containsChars_iff (n h : List Char) : containsChars n h = true ↔ n <:+: h := by
  induction h with
  | nil => simp [containsChars, List.infix_nil, List.isEmpty_iff]
  | cons c t ih =>
    simp [containsChars, ih, isPrefixOfChars_iff, List.infix_cons_iff]

theorem strContains_iff (hay needle : String) :
    strContains hay needle = true ↔ needle.data <:+: hay.data := by
  exact containsChars_iff needle.data hay.data

/-! ## C3: the match filter -/

/-- C3: for every product name `n` and term list `T`, the match filter
returns true iff `n` is non-empty and every term in `T`, lowercased, is a
substring of the lowercased `n`; an empty name never matches; and a
non-empty name matches the empty term list. -/
theorem matches_search_terms_spec (product_name : String) (search_terms : List String) :
    (matches_search_terms search_terms product_name = true ↔
      (product_name ≠ "" ∧
        ∀ term ∈ search_terms, (pyLower term).data <:+: (pyLower product_name).data))
    ∧ matches_search_terms search_terms "" = false
    ∧ (product_name ≠ "" → matches_search_terms [] product_name = true) := by
  refine ⟨?_, by simp [matches_search_terms], ?_⟩
  · unfold matches_search_terms
    by_cases hn : product_name = ""
    · simp [hn]
    · simp only [hn, if_false, List.all_eq_true, ne_eq, not_false_eq_true, true_and]
      constructor
      · intro hall term hterm
        exact (strContains_iff _ _).mp (hall term hterm)
      · intro hall term hterm
        exact (strContains_iff _ _).mpr (hall term hterm)
  · intro hn
    simp [matches_search_terms, hn]

/-- Witness for C3: a concrete application of the theorem. -/
theorem matches_search_terms_spec_witness :
    matches_search_terms [] "Nike Air Force 1" = true
      ∧ matches_search_terms ["Paris"] "" = false :=
  ⟨(matches_search_terms_spec "Nike Air Force 1" []).2.2 (by decide),
   (matches_search_terms_spec "Nike Air Force 1" ["Paris"]).2.1⟩

/-! ## C2: the notification formatter -/

theorem joinWith_cons_ne (sep x : String) (l : List String) (hl : l ≠ []) :
    joinWith sep (x :: l) = x ++ sep ++ joinWith sep l := by
  cases l with
  | nil => exact absurd rfl hl
  | cons y t => rfl

theorem joinWith_append (sep : String) (xs ys : List String) (hx : xs ≠ []) (hy : ys ≠ []) :
    joinWith sep (xs ++ ys) = joinWith sep xs ++ sep ++ joinWith sep ys := by
  induction xs with
  | nil => exact absurd rfl hx
  | cons x t ih =>
    cases t with
    | nil =>
      simpa using joinWith_cons_ne sep x ys hy
    | cons y t2 =>
      rw [List.cons_append,
        joinWith_cons_ne sep x ((y :: t2) ++ ys) (by simp),
        ih (by simp),
        joinWith_cons_ne sep x (y :: t2) (by simp)]
      simp [String.append_assoc]

theorem append_nl_nl (s : String) : ("\n" : String) ++ ("\n" ++ s) = "\n\n" ++ s := by
  rw [← String.append_assoc]
  rfl

theorem joinWith_blocks (blocks : List (List String))
    (hne : blocks ≠ []) (hb : ∀ b ∈ blocks, b ≠ []) :
    joinWith "\n" (blocks.flatMap (fun b => b ++ [""]))
      = joinWith "\n\n" (blocks.map (joinWith "\n")) ++ "\n" := by
  induction blocks with
  | nil => exact absurd rfl hne
  | cons b rest ih =>
    cases rest with
    | nil =>
      have hbne : b ≠ [] := hb b (by simp)
      simp only [List.flatMap_cons, List.flatMap_nil, List.append_nil, List.map_cons,
        List.map_nil]
      rw [joinWith_append "\n" b [""] hbne (by simp)]
      show joinWith "\n" b ++ "\n" ++ joinWith "\n" [""]
        = joinWith "\n\n" [joinWith "\n" b] ++ "\n"
      simp [joinWith, String.append_empty]
    | cons b2 rest2 =>
      have hbne : b ≠ [] := hb b (by simp)
      have hflatne : (b2 :: rest2).flatMap (fun b => b ++ [""]) ≠ [] := by
        simp only [List.flatMap_cons]
        intro hcontra
        have := List.append_eq_nil.mp hcontra
        exact absurd (List.append_eq_nil.mp this.1).2 (by simp)
      have hrest : ∀ x ∈ b2 :: rest2, x ≠ [] := fun x hx => hb x (by simp [hx])
      simp only [List.flatMap_cons] at hflatne ⊢
      rw [joinWith_append "\n" (b ++ [""]) _ (by simp) hflatne]
      rw [joinWith_append "\n" b [""] hbne (by simp)]
      have hih := ih (by simp) hrest
      simp only [List.flatMap_cons] at hih
      rw [hih]
      have hmc : List.map (joinWith "\n") (b :: b2 :: rest2)
          = joinWith "\n" b :: List.map (joinWith "\n") (b2 :: rest2) := rfl
      rw [hmc,
        joinWith_cons_ne "\n\n" (joinWith "\n" b) (List.map (joinWith "\n") (b2 :: rest2))
          (by simp)]
      have hemp : joinWith "\n" [""] = "" := rfl
      rw [hemp, String.append_empty]
      simp only [String.append_assoc]
      rw [append_nl_nl]

/-- C2: for every non-empty product list, the formatter returns the found
message: the alert header, then one block per product (name line, price
line, comma-joined size list or the check-website placeholder, timestamp
line, buy link line), the blocks separated by a blank line, with a final
trailing newline. -/
theorem format_notification_spec (now : String) (products : List Product)
    (h : products ≠ []) :
    format_notification now products = spec_found_message now products := by
  cases products with
  | nil => exact absurd rfl h
  | cons p ps =>
    unfold format_notification spec_found_message
    simp only [List.isEmpty_cons, Bool.false_eq_true, if_false]
    have hflatne : (p :: ps).flatMap (productLines now) ≠ [] := by
      simp only [List.flatMap_cons, productLines]
      intro hcontra
      have := List.append_eq_nil.mp hcontra
      exact absurd (List.append_eq_nil.mp this.1).2 (by simp)
    rw [joinWith_cons_ne "\n" _ _ hflatne]
    have hrw : (p :: ps).flatMap (productLines now)
        = ((p :: ps).map (productCoreLines now)).flatMap (fun b => b ++ [""]) := by
      simp only [List.flatMap_map]
      rfl
    rw [hrw]
    rw [joinWith_blocks ((p :: ps).map (productCoreLines now)) (by simp)
      (by intro b hbmem; rcases List.mem_map.mp hbmem with ⟨q, _, hq⟩; rw [← hq]
          simp [productCoreLines])]
    have hmapmap : ((p :: ps).map (productCoreLines now)).map (joinWith "\n")
        = (p :: ps).map (specProductBlock now) := by
      simp [List.map_map, specProductBlock, Function.comp]
    rw [hmapmap]
    simp [String.append_assoc]

/-- Witness for C2: a concrete application of the theorem. -/
theorem format_notification_spec_witness :
    format_notification "T" [⟨"n", "p", "l", ["9", "10"], true⟩]
      = spec_found_message "T" [⟨"n", "p", "l", ["9", "10"], true⟩] :=
  format_notification_spec "T" [⟨"n", "p", "l", ["9", "10"], true⟩] (by decide)

/-! ## C1, C6, C7: the change detector -/

/-- C1: for a non-empty product list whose computed current state differs
from the persisted prior state, `should_notify` persists the full new
mapping and returns true. -/
theorem should_notify_changed (products : List Product) (file : StateFile)
    (hne : products ≠ [])
    (hdiff : dictEq (current_state_of products) (loadState file) = false) :
    should_notify products file = (true, some (current_state_of products)) := by
  cases products with
  | nil => exact absurd rfl hne
  | cons p ps =>
    unfold should_notify
    simp only [List.isEmpty_cons, Bool.false_eq_true, if_false, hdiff]

/-- Witness for C1: a concrete application of the theorem. -/
theorem should_notify_changed_witness :
    should_notify [⟨"x", "p", "a/b", ["9"], true⟩] none
      = (true, some (current_state_of [⟨"x", "p", "a/b", ["9"], true⟩])) :=
  should_notify_changed [⟨"x", "p", "a/b", ["9"], true⟩] none (by decide) (by decide)

/-- C6: for the empty product list, `should_notify` returns true whatever
the persisted state holds, and leaves the state file untouched. -/
theorem should_notify_empty (file : StateFile) :
    should_notify [] file = (true, file) := rfl

/-- C7: for a non-empty product list whose computed current state equals
the persisted prior state, `should_notify` returns false and performs no
write (the state file is returned unchanged). -/
theorem should_notify_unchanged (products : List Product) (file : StateFile)
    (hne : products ≠ [])
    (heq : dictEq (current_state_of products) (loadState file) = true) :
    should_notify products file = (false, file) := by
  cases products with
  | nil => exact absurd rfl hne
  | cons p ps =>
    unfold should_notify
    simp only [List.isEmpty_cons, Bool.false_eq_true, if_false, heq, if_true]

/-- Witness for C7: a concrete application of the theorem. -/
theorem should_notify_unchanged_witness :
    should_notify [⟨"x", "p", "a/b", ["9"], true⟩]
        (some (current_state_of [⟨"x", "p", "a/b", ["9"], true⟩]))
      = (false, some (current_state_of [⟨"x", "p", "a/b", ["9"], true⟩])) :=
  should_notify_unchanged [⟨"x", "p", "a/b", ["9"], true⟩]
    (some (current_state_of [⟨"x", "p", "a/b", ["9"], true⟩])) (by decide) (by decide)

/-! ## C4: the detail extractor's `in_stock` -/

/-- Counterexample to C4 as stated: a detail page with no size buttons
whose first affordance-text button is disabled while a second one is
enabled.  A non-disabled purchase-affordance button is present on the
page, and the size list is empty, yet the code reports `in_stock = false`,
because `soup.find` only consults the first matching button. -/
theorem in_stock_counterexample :
    (get_product_details (Fetch.http 200
        ⟨[⟨"", true, "Add to Bag"⟩, ⟨"", false, "Add to Cart"⟩], none⟩)).sizes = []
    ∧ ([(⟨"", true, "Add to Bag"⟩ : Button), ⟨"", false, "Add to Cart"⟩].any
        (fun b => isAffordanceButton b && !b.disabled)) = true
    ∧ (get_product_details (Fetch.http 200
        ⟨[⟨"", true, "Add to Bag"⟩, ⟨"", false, "Add to Cart"⟩], none⟩)).in_stock = false := by
  decide

/-- C4 (amended): for every successfully fetched and parsed detail page,
`in_stock` is true iff the extracted size list is non-empty or the first
button whose text matches the purchase-affordance pattern is not
disabled; and at least one extracted size gives `in_stock = true`
regardless of the affordance check. -/
theorem in_stock_characterisation (page : DetailPage) :
    ((get_product_details (Fetch.http 200 page)).in_stock = true ↔
      ((get_product_details (Fetch.http 200 page)).sizes ≠ [] ∨
        ∃ b, page.buttons.find? isAffordanceButton = some b ∧ b.disabled = false))
    ∧ ((get_product_details (Fetch.http 200 page)).sizes ≠ [] →
        (get_product_details (Fetch.http 200 page)).in_stock = true) := by
  have hsz : (get_product_details (Fetch.http 200 page)).sizes = extractSizes page := by
    simp [get_product_details]
  have hstock : (get_product_details (Fetch.http 200 page)).in_stock
      = ((match page.buttons.find? isAffordanceButton with
          | some b => !b.disabled
          | none => false) || decide ((extractSizes page).length > 0)) := by
    simp only [get_product_details, if_neg (by decide : ¬(200 ≠ 200))]
    cases page.buttons.find? isAffordanceButton with
    | none => simp
    | some b => cases hd : b.disabled <;> simp [hd]
  rw [hsz, hstock]
  cases hfind : page.buttons.find? isAffordanceButton with
  | none =>
    simp only [Bool.false_or, decide_eq_true_eq]
    refine ⟨⟨fun hp => Or.inl (List.length_pos.mp hp), ?_⟩, fun hne => List.length_pos.mpr hne⟩
    rintro (hne | ⟨b, hb, _⟩)
    · exact List.length_pos.mpr hne
    · exact Option.noConfusion hb
  | some b =>
    dsimp only
    cases hdis : b.disabled with
    | false =>
      simp only [Bool.not_false, Bool.true_or]
      exact ⟨⟨fun _ => Or.inr ⟨b, rfl, hdis⟩, fun _ => trivial⟩, fun _ => trivial⟩
    | true =>
      simp only [Bool.not_true, Bool.false_or, decide_eq_true_eq]
      refine ⟨⟨fun hp => Or.inl (List.length_pos.mp hp), ?_⟩, fun hne => List.length_pos.mpr hne⟩
      rintro (hne | ⟨b2, hb2, hdis2⟩)
      · exact List.length_pos.mpr hne
      · rw [← Option.some.inj hb2] at hdis2
        rw [hdis] at hdis2
        exact Bool.noConfusion hdis2

/-- Witness for the amended C4: a concrete application of the theorem at
a page with one enabled size button. -/
theorem in_stock_characterisation_witness :
    (get_product_details (Fetch.http 200 ⟨[⟨"btn-size", false, "9"⟩], none⟩)).in_stock
      = true :=
  (in_stock_characterisation ⟨[⟨"btn-size", false, "9"⟩], none⟩).2 (by decide)

/-! ## C5: the retention invariant of the result set -/

/-- C5: every product in the availability check's result set has
`in_stock = true` or a non-empty size list; and a matching candidate
whose detail record has `in_stock = false` and no sizes (e.g. after a
detail-fetch failure) is omitted. -/
theorem check_nike_availability_retention (search_terms : List String)
    (fetchDetail : String → Fetch DetailPage) (outcome : Fetch (List Card)) :
    (∀ p ∈ check_nike_availability search_terms fetchDetail outcome,
      p.in_stock = true ∨ p.sizes ≠ [])
    ∧ (∀ card : Card, matches_search_terms search_terms card.name = true →
        (get_product_details (fetchDetail card.link)).in_stock = false →
        (get_product_details (fetchDetail card.link)).sizes = [] →
        assembleProduct search_terms fetchDetail card = none) := by
  constructor
  · intro p hp
    cases outcome with
    | exn => exact absurd hp (by simp [check_nike_availability])
    | http status cards =>
      simp only [check_nike_availability] at hp
      by_cases hs : status ≠ 200
      · rw [if_pos hs] at hp
        exact absurd hp (by simp)
      · rw [if_neg hs] at hp
        obtain ⟨card, _, hsome⟩ := List.mem_filterMap.mp hp
        unfold assembleProduct at hsome
        by_cases hm : matches_search_terms search_terms card.name = true
        · rw [if_pos hm] at hsome
          by_cases hcond : ((buildProductInfo card
              (get_product_details (fetchDetail card.link))).in_stock
              || !(buildProductInfo card
                (get_product_details (fetchDetail card.link))).sizes.isEmpty) = true
          · rw [if_pos hcond] at hsome
            rw [← Option.some.inj hsome]
            rcases Bool.or_eq_true_iff.mp hcond with hin | hsz
            · exact Or.inl hin
            · refine Or.inr ?_
              intro hnil
              rw [hnil] at hsz
              exact Bool.noConfusion hsz
          · rw [if_neg hcond] at hsome
            exact Option.noConfusion hsome
        · rw [if_neg hm] at hsome
          exact Option.noConfusion hsome
  · intro card hm hstock hsizes
    simp [assembleProduct, hm, buildProductInfo, hstock, hsizes]

/-- Witness for C5: a concrete application of the theorem — a matching
candidate whose detail page yields no purchasability signal is dropped. -/
theorem check_nike_availability_retention_witness :
    assembleProduct [] (fun _ => Fetch.http 200 ⟨[], none⟩) ⟨"x", "l", ""⟩ = none :=
  (check_nike_availability_retention [] (fun _ => Fetch.http 200 ⟨[], none⟩)
    Fetch.exn).2 ⟨"x", "l", ""⟩ (by decide) (by decide) (by decide)

/-! ## C8: fetch failures degrade to the empty result -/

/-- C8: a raised network exception or a non-200 status on the listing
fetch makes the availability check return the empty list; the model's
function is total, so no exception reaches the run loop. -/
theorem check_nike_availability_errors (search_terms : List String)
    (fetchDetail : String → Fetch DetailPage) :
    check_nike_availability search_terms fetchDetail Fetch.exn = []
    ∧ ∀ (status : Nat) (cards : List Card), status ≠ 200 →
        check_nike_availability search_terms fetchDetail (Fetch.http status cards) = [] := by
  refine ⟨rfl, fun status cards hs => ?_⟩
  simp [check_nike_availability, hs]

/-- Witness for C8: a concrete application of the theorem at HTTP 404. -/
theorem check_nike_availability_errors_witness :
    check_nike_availability [] (fun _ => Fetch.exn) (Fetch.http 404 []) = [] :=
  (check_nike_availability_errors [] (fun _ => Fetch.exn)).2 404 [] (by decide)

/-! ## C9: notification channel isolation -/

/-- C9: each channel send is a total function returning a boolean (a
raised exception inside a channel is caught and yields false, never a
propagated error); a disabled channel or one with missing credentials
yields false; and each component of the dispatch depends only on its own
channel's configuration and network outcome, so a failure in one channel
cannot prevent the attempts on the others. -/
theorem notification_channels_isolated (tc : TelegramConfig) (ec : EmailConfig)
    (dc : DiscordConfig) (message subject : String) (tn tn2 : HttpPost)
    (en en2 : SmtpSession) (dn : HttpPost) :
    (tc.enabled = false → send_telegram_message tc message tn = false)
    ∧ (tc.bot_token = none ∨ tc.chat_id = none →
        send_telegram_message tc message tn = false)
    ∧ send_telegram_message tc message HttpPost.exn = false
    ∧ (ec.enabled = false → send_email_notification ec subject message en = false)
    ∧ (ec.sender_email = none → send_email_notification ec subject message en = false)
    ∧ send_email_notification ec subject message SmtpSession.exn = false
    ∧ (dc.enabled = false → send_discord_message dc message dn = false)
    ∧ (dc.webhook_url = none → send_discord_message dc message dn = false)
    ∧ send_discord_message dc message HttpPost.exn = false
    ∧ (dispatch tc ec dc message tn en dn).2.2 = (dispatch tc ec dc message tn2 en2 dn).2.2
    ∧ (dispatch tc ec dc message tn en dn).2.1 = (dispatch tc ec dc message tn2 en dn).2.1
    ∧ (dispatch tc ec dc message tn en dn).1 = (dispatch tc ec dc message tn en2 dn).1 := by
  refine ⟨fun h => ?_, fun h => ?_, ?_, fun h => ?_, fun h => ?_, ?_,
    fun h => ?_, fun h => ?_, ?_, rfl, rfl, rfl⟩
  · simp [send_telegram_message, h]
  · rcases h with h | h <;> simp [send_telegram_message, truthyStr, h]
  · simp [send_telegram_message]
  · simp [send_email_notification, h]
  · simp [send_email_notification, h]
  · unfold send_email_notification
    split
    · rfl
    · split
      · rfl
      · rfl
  · simp [send_discord_message, h]
  · simp [send_discord_message, truthyStr, h]
  · simp [send_discord_message]

/-- Witness for C9: a concrete application of the theorem — a disabled
chat-bot channel is skipped. -/
theorem notification_channels_isolated_witness :
    send_telegram_message ⟨false, none, none⟩ "m" HttpPost.exn = false :=
  (notification_channels_isolated ⟨false, none, none⟩
    ⟨false, none, none, none, none, none⟩ ⟨false, none⟩ "m" "s"
    HttpPost.exn HttpPost.exn SmtpSession.exn SmtpSession.exn HttpPost.exn).1 rfl

/-! ## C10: listing price takes precedence over detail price -/

/-- C10: for every card and detail-fetch outcome, the assembled product's
price is the listing price when that is non-empty, else the detail
record's price when present, else the literal `"N/A"`. -/
theorem product_price_precedence (card : Card) (fetch : Fetch DetailPage) :
    (card.price ≠ "" →
      (buildProductInfo card (get_product_details fetch)).price = card.price)
    ∧ (card.price = "" → ∀ s, (get_product_details fetch).price = some s →
        (buildProductInfo card (get_product_details fetch)).price = s)
    ∧ (card.price = "" → (get_product_details fetch).price = none →
        (buildProductInfo card (get_product_details fetch)).price = "N/A") := by
  refine ⟨fun h => ?_, fun h s hs => ?_, fun h hn => ?_⟩
  · simp [buildProductInfo, h]
  · simp [buildProductInfo, h, hs]
  · simp [buildProductInfo, h, hn]

/-- Witness for C10: a concrete application of the theorem. -/
theorem product_price_precedence_witness :
    (buildProductInfo ⟨"n", "l", "$10"⟩ (get_product_details Fetch.exn)).price = "$10" :=
  (product_price_precedence ⟨"n", "l", "$10"⟩ Fetch.exn).1 (by decide)

end NikeMonitor
